import Mathlib

/-!
# `get-remote-resources`: the manifest generator

A shallow embedding of `cmd/argo/commands/cluster/get_remote_resources.go`.

* Go strings are modelled by Lean `String` (valid UTF-8 text), runes by `Char`.
* `fmt.Sprintf` with the verbs `%s` and `%q` is modelled by concatenation of the
  literal pieces of the format with the operand (`%s`) or with `Quote` of the
  operand (`%q`, which `fmt` renders through `strconv.Quote`).
* The process is modelled by the final `State` of one run of the command's
  `RunE` closure: the resources it built, the effects it performed in order,
  and how it terminated.
-/

namespace Cluster

/-! ## Kubernetes object descriptors (only the fields the command sets) -/

/-- Mirror of `metav1.TypeMeta`. -/
structure TypeMeta where
  Kind : String
  APIVersion : String
  deriving DecidableEq

/-- Mirror of `metav1.ObjectMeta`; the command only sets `Name`. -/
structure ObjectMeta where
  Name : String
  deriving DecidableEq

/-- Mirror of `rbacv1.PolicyRule`; the fields the command leaves unset are nil. -/
structure PolicyRule where
  Verbs : List String
  APIGroups : List String
  Resources : List String
  ResourceNames : List String := []
  NonResourceURLs : List String := []
  deriving DecidableEq

/-- Mirror of `rbacv1.Subject`; `APIGroup` and `Namespace` are left at their zero value. -/
structure Subject where
  Kind : String
  APIGroup : String := ""
  Name : String
  Namespace : String := ""
  deriving DecidableEq

/-- Mirror of `rbacv1.RoleRef`. -/
structure RoleRef where
  APIGroup : String
  Kind : String
  Name : String
  deriving DecidableEq

/-- The three concrete types stored in the `[]metav1.Object` slice. -/
inductive Object where
  | ServiceAccount (typeMeta : TypeMeta) (objectMeta : ObjectMeta)
  | Role (typeMeta : TypeMeta) (objectMeta : ObjectMeta) (Rules : List PolicyRule)
  | RoleBinding (typeMeta : TypeMeta) (objectMeta : ObjectMeta)
      (Subjects : List Subject) (roleRef : RoleRef)
  deriving DecidableEq

/-- The `Kind` of the object's `TypeMeta`. -/
def Object.kind : Object → String
  | .ServiceAccount tm _ => tm.Kind
  | .Role tm _ _ => tm.Kind
  | .RoleBinding tm _ _ _ => tm.Kind

/-- The `Name` of the object's `ObjectMeta`. -/
def Object.name : Object → String
  | .ServiceAccount _ om => om.Name
  | .Role _ om _ => om.Name
  | .RoleBinding _ om _ _ => om.Name

/-! ## `strconv.Quote`, the renderer behind the `%q` verb -/

/-- The digits table `lowerhex` of `strconv`. -/
def lowerhex : List Char := "0123456789abcdef".data

/-- The table lookup `lowerhex[n & 0xF]`. -/
def hexDigit (n : Nat) : Char := lowerhex.getD (n % 16) '0'

/-- Go's `strconv.IsPrint`.  The Latin-1 fast path is transcribed; for runes above
`U+00FF` Go searches Unicode tables that are not part of this repository, taken
here as the parameter `isPrintTable`. -/
def IsPrint (isPrintTable : Nat → Bool) (r : Nat) : Bool :=
  if r ≤ 0xFF then
    if 0x20 ≤ r ∧ r ≤ 0x7E then true
    else if 0xA1 ≤ r ∧ r ≤ 0xFF then r != 0xAD
    else false
  else isPrintTable r

/-- The backslash character. -/
def backslash : Char := Char.ofNat 0x5C

/-- The double-quote character. -/
def dquote : Char := Char.ofNat 0x22

/-- The line-feed character. -/
def newline : Char := Char.ofNat 0x0A

/-- Go's `appendEscapedRune` as `strconv.Quote` calls it
(`quote = '"'`, `ASCIIonly = false`, `graphicOnly = false`): the characters
appended for the rune `r`.  `lowerhex[r>>s&0xF]` is `hexDigit (r / 2 ^ s)`.  The
branch for runes that are not valid code points cannot be reached from a `Char`. -/
def appendEscapedRune (isPrintTable : Nat → Bool) (r : Char) : List Char :=
  if r.toNat = 0x22 ∨ r.toNat = 0x5C then [backslash, r]
  else if IsPrint isPrintTable r.toNat then [r]
  else if r.toNat = 0x07 then [backslash, 'a']
  else if r.toNat = 0x08 then [backslash, 'b']
  else if r.toNat = 0x0C then [backslash, 'f']
  else if r.toNat = 0x0A then [backslash, 'n']
  else if r.toNat = 0x0D then [backslash, 'r']
  else if r.toNat = 0x09 then [backslash, 't']
  else if r.toNat = 0x0B then [backslash, 'v']
  else if r.toNat < 0x20 ∨ r.toNat = 0x7F then
    [backslash, 'x', hexDigit (r.toNat / 16), hexDigit r.toNat]
  else if r.toNat < 0x10000 then
    [backslash, 'u', hexDigit (r.toNat / 2 ^ 12), hexDigit (r.toNat / 2 ^ 8),
      hexDigit (r.toNat / 2 ^ 4), hexDigit r.toNat]
  else
    [backslash, 'U', hexDigit (r.toNat / 2 ^ 28), hexDigit (r.toNat / 2 ^ 24),
      hexDigit (r.toNat / 2 ^ 20), hexDigit (r.toNat / 2 ^ 16),
      hexDigit (r.toNat / 2 ^ 12), hexDigit (r.toNat / 2 ^ 8),
      hexDigit (r.toNat / 2 ^ 4), hexDigit r.toNat]

/-- The loop of Go's `appendQuotedWith` over the runes of the operand. -/
def quotedRunes (isPrintTable : Nat → Bool) : List Char → List Char
  | [] => []
  | r :: rest => appendEscapedRune isPrintTable r ++ quotedRunes isPrintTable rest

/-- Go's `strconv.Quote`: the operand between two double quotes, rune by rune
through `appendEscapedRune`. -/
def Quote (isPrintTable : Nat → Bool) (s : String) : String :=
  String.mk (dquote :: (quotedRunes isPrintTable s.data ++ [dquote]))

/-! ## The naming helper -/

/-- Translation of `remoteServiceAccountName`:
`fmt.Sprintf("argo.%s.%s.%s.%s", localNamespace, localCluster, remoteNamespace, suffix)`. -/
def remoteServiceAccountName (localNamespace localCluster remoteNamespace : String)
    (read write : Bool) : String :=
  let suffix := ""
  let suffix :=
    if read && write then "rw"
    else if read then "ro"
    else if write then "wo"
    else suffix
  "argo." ++ localNamespace ++ "." ++ localCluster ++ "." ++ remoteNamespace ++ "." ++ suffix

/-! ## The command -/

/-- What the command takes from outside this file. -/
structure Env where
  /-- The constant `workflow.Group`. -/
  Group : String
  /-- The constant `workflow.WorkflowTaskResultPlural`. -/
  WorkflowTaskResultPlural : String
  /-- The Unicode tables behind `strconv.IsPrint` above `U+00FF`. -/
  isPrintTable : Nat → Bool
  /-- The bytes `yaml.Marshal` returns for an object (its error is discarded by the command). -/
  Marshal : Object → String

/-- The four option variables bound by `cmd.Flags()`. -/
structure Flags where
  localNamespace : String := ""
  remoteNamespace : String := ""
  read : Bool := false
  write : Bool := false
  deriving DecidableEq

/-- One observable action of the command, in program order. -/
inductive Effect where
  /-- `cmd.HelpFunc()(cmd, args)`. -/
  | help (args : List String)
  /-- `os.Stdout.WriteString(s)` or `os.Stdout.Write(data)`. -/
  | write (s : String)
  deriving DecidableEq

/-- How a run of `RunE` ends. -/
inductive Termination where
  /-- `os.Exit(code)`. -/
  | exit (code : Nat)
  /-- `return nil`. -/
  | returnNil
  deriving DecidableEq

/-- The state at the end of a run: the local slice `resources`, the effects so far, the end. -/
structure State where
  resources : List Object
  effects : List Effect
  termination : Termination
  deriving DecidableEq

/-- Modelled from the spec: the host `main` that turns the result of `RunE` into the
process exit status is not under `src/`; section 6 gives "0 on success". -/
def exitCode : Termination → Nat
  | .exit code => code
  | .returnNil => 0

/-- The constant `rbacAPIGroup`. -/
def rbacAPIGroup : String := "rbac.authorization.k8s.io"

/-- The constant `rbacAPIVersion`. -/
def rbacAPIVersion : String := rbacAPIGroup ++ "/v1"

/-- The constant `readRole`. -/
def readRole : String := "argo-read"

/-- The constant `writeRole`. -/
def writeRole : String := "argo-write"

/-- The `range resources` loop: a `---` line, then the marshalled object. -/
def emitResources (env : Env) : List Object → List Effect → List Effect
  | [], out => out
  | resource :: rest, out =>
      emitResources env rest (out ++ [Effect.write "---\n", Effect.write (env.Marshal resource)])

/-- Translation of the `RunE` closure of `newGetRemoteResourcesCommand`. -/
def RunE (env : Env) (flags : Flags) (args : List String) : State :=
  if args.length ≠ 2 then
    { resources := [], effects := [Effect.help args], termination := Termination.exit 1 }
  else
    let localCluster := args.getD 0 ""
    let remoteCluster := args.getD 1 ""
    let name := remoteServiceAccountName flags.localNamespace localCluster
      flags.remoteNamespace flags.read flags.write
    let resources : List Object := [
      Object.ServiceAccount { Kind := "ServiceAccount", APIVersion := "v1" } { Name := name },
      Object.Role { Kind := "Role", APIVersion := rbacAPIVersion } { Name := readRole } [
        { Verbs := ["list", "watch"], APIGroups := [env.Group],
          Resources := [env.WorkflowTaskResultPlural] },
        { Verbs := ["list", "watch"], APIGroups := [""], Resources := ["pods", "pods/exec"] }],
      Object.Role { Kind := "Role", APIVersion := rbacAPIVersion } { Name := writeRole } [
        { Verbs := ["deletecollection"], APIGroups := [env.Group],
          Resources := [env.WorkflowTaskResultPlural] },
        { Verbs := ["create", "patch", "delete"], APIGroups := [""],
          Resources := ["pods", "pods/exec"] }]]
    let subjects : List Subject := [{ Kind := "ServiceAccount", Name := name }]
    let resources :=
      if flags.read then
        resources ++ [Object.RoleBinding { Kind := "RoleBinding", APIVersion := rbacAPIVersion }
          { Name := "argo-read." ++ name } subjects
          { APIGroup := rbacAPIGroup, Kind := "Role", Name := readRole }]
      else resources
    let resources :=
      if flags.write then
        resources ++ [Object.RoleBinding { Kind := "RoleBinding", APIVersion := rbacAPIVersion }
          { Name := "argo-write." ++ name } subjects
          { APIGroup := rbacAPIGroup, Kind := "Role", Name := writeRole }]
      else resources
    let out := [Effect.write "# This is an auto-generated file. DO NOT EDIT\n"]
    let out := out ++ [Effect.write ("# namespace " ++ Quote env.isPrintTable flags.localNamespace
      ++ " in cluster " ++ Quote env.isPrintTable localCluster
      ++ " to namespace " ++ Quote env.isPrintTable flags.remoteNamespace
      ++ " in cluster " ++ Quote env.isPrintTable remoteCluster ++ "\n")]
    let out := emitResources env resources out
    { resources := resources, effects := out, termination := Termination.returnNil }

/-- A concrete environment for closed evaluations: the two constants as the
workflow API package declares them, a table that marks no rune above `U+00FF`
printable, and a marshaller that renders `kind/name`. -/
def Env.sample : Env where
  Group := "argoproj.io"
  WorkflowTaskResultPlural := "workflowtaskresults"
  isPrintTable := fun _ => false
  Marshal := fun o => o.kind ++ "/" ++ o.name ++ "\n"

/-! ## The specification's wording, for comparison with the code -/

/-- The suffix table of section 3 of the specification. -/
def Spec.suffix : Bool → Bool → String
  | true, true => "rw"
  | true, false => "ro"
  | false, true => "wo"
  | false, false => ""

/-- The descriptor summary of section 3: kind and name of each emitted document. -/
def Spec.documents (name : String) (read write : Bool) : List (String × String) :=
  [("ServiceAccount", name), ("Role", "argo-read"), ("Role", "argo-write")]
    ++ (if read then [("RoleBinding", "argo-read." ++ name)] else [])
    ++ (if write then [("RoleBinding", "argo-write." ++ name)] else [])

/-- The name and the rule list of every `Role` in a resource list, in order. -/
def rolesOf : List Object → List (String × List PolicyRule)
  | [] => []
  | Object.Role _ om rules :: rest => (om.Name, rules) :: rolesOf rest
  | _ :: rest => rolesOf rest

/-- The name, subjects and role reference of every `RoleBinding` in a resource list, in order. -/
def bindingsOf : List Object → List (String × List Subject × RoleRef)
  | [] => []
  | Object.RoleBinding _ om subjects roleRef :: rest =>
      (om.Name, subjects, roleRef) :: bindingsOf rest
  | _ :: rest => bindingsOf rest

/-! ## Shared lemmas -/

theorem emitResources_eq (env : Env) (resources : List Object) (out : List Effect) :
    emitResources env resources out
      = out ++ resources.flatMap
          (fun r => [Effect.write "---\n", Effect.write (env.Marshal r)]) := by
  induction resources generalizing out with
  | nil => simp [emitResources]
  | cons r rest ih => simp [emitResources, ih]

theorem RunE_bad_arity (env : Env) (flags : Flags) (args : List String)
    (h : args.length ≠ 2) :
    RunE env flags args
      = { resources := [], effects := [Effect.help args],
          termination := Termination.exit 1 } := by
  simp [RunE, h]

theorem RunE_resources (env : Env) (flags : Flags) (localCluster remoteCluster : String) :
    (RunE env flags [localCluster, remoteCluster]).resources
      = [Object.ServiceAccount { Kind := "ServiceAccount", APIVersion := "v1" }
           { Name := remoteServiceAccountName flags.localNamespace localCluster
               flags.remoteNamespace flags.read flags.write },
         Object.Role { Kind := "Role", APIVersion := "rbac.authorization.k8s.io/v1" }
           { Name := "argo-read" }
           [{ Verbs := ["list", "watch"], APIGroups := [env.Group],
              Resources := [env.WorkflowTaskResultPlural] },
            { Verbs := ["list", "watch"], APIGroups := [""],
              Resources := ["pods", "pods/exec"] }],
         Object.Role { Kind := "Role", APIVersion := "rbac.authorization.k8s.io/v1" }
           { Name := "argo-write" }
           [{ Verbs := ["deletecollection"], APIGroups := [env.Group],
              Resources := [env.WorkflowTaskResultPlural] },
            { Verbs := ["create", "patch", "delete"], APIGroups := [""],
              Resources := ["pods", "pods/exec"] }]]
        ++ (if flags.read then
              [Object.RoleBinding
                { Kind := "RoleBinding", APIVersion := "rbac.authorization.k8s.io/v1" }
                { Name := "argo-read." ++ remoteServiceAccountName flags.localNamespace
                    localCluster flags.remoteNamespace flags.read flags.write }
                [{ Kind := "ServiceAccount",
                   Name := remoteServiceAccountName flags.localNamespace localCluster
                     flags.remoteNamespace flags.read flags.write }]
                { APIGroup := "rbac.authorization.k8s.io", Kind := "Role",
                  Name := "argo-read" }]
            else [])
        ++ (if flags.write then
              [Object.RoleBinding
                { Kind := "RoleBinding", APIVersion := "rbac.authorization.k8s.io/v1" }
                { Name := "argo-write." ++ remoteServiceAccountName flags.localNamespace
                    localCluster flags.remoteNamespace flags.read flags.write }
                [{ Kind := "ServiceAccount",
                   Name := remoteServiceAccountName flags.localNamespace localCluster
                     flags.remoteNamespace flags.read flags.write }]
                { APIGroup := "rbac.authorization.k8s.io", Kind := "Role",
                  Name := "argo-write" }]
            else []) := by
  have hv : rbacAPIVersion = "rbac.authorization.k8s.io/v1" := by decide
  cases hr : flags.read <;> cases hw : flags.write <;>
    simp [RunE, hr, hw, hv, rbacAPIGroup, readRole, writeRole]

theorem RunE_effects (env : Env) (flags : Flags) (localCluster remoteCluster : String) :
    (RunE env flags [localCluster, remoteCluster]).effects
      = [Effect.write "# This is an auto-generated file. DO NOT EDIT\n",
         Effect.write ("# namespace " ++ Quote env.isPrintTable flags.localNamespace
           ++ " in cluster " ++ Quote env.isPrintTable localCluster
           ++ " to namespace " ++ Quote env.isPrintTable flags.remoteNamespace
           ++ " in cluster " ++ Quote env.isPrintTable remoteCluster ++ "\n")]
        ++ (RunE env flags [localCluster, remoteCluster]).resources.flatMap
             (fun r => [Effect.write "---\n", Effect.write (env.Marshal r)]) := by
  simp [RunE, emitResources_eq]

theorem RunE_termination (env : Env) (flags : Flags) (localCluster remoteCluster : String) :
    (RunE env flags [localCluster, remoteCluster]).termination = Termination.returnNil := by
  simp [RunE]

/-! ## The claims -/

/-- C1: for all strings and flags, `remoteServiceAccountName` returns
`argo.<localNamespace>.<localCluster>.<remoteNamespace>.<suffix>` with the suffix
table rw / ro / wo / empty; with neither flag the name ends in a dot, and the two
examples of the specification evaluate as written. -/
theorem remoteServiceAccountName_spec (localNamespace localCluster remoteNamespace : String)
    (read write : Bool) :
    remoteServiceAccountName localNamespace localCluster remoteNamespace read write
        = "argo." ++ localNamespace ++ "." ++ localCluster ++ "." ++ remoteNamespace
            ++ "." ++ Spec.suffix read write
      ∧ Spec.suffix true true = "rw" ∧ Spec.suffix true false = "ro"
      ∧ Spec.suffix false true = "wo" ∧ Spec.suffix false false = ""
      ∧ remoteServiceAccountName localNamespace localCluster remoteNamespace false false
        = "argo." ++ localNamespace ++ "." ++ localCluster ++ "." ++ remoteNamespace ++ "."
      ∧ remoteServiceAccountName "ns1" "c1" "ns2" false false = "argo.ns1.c1.ns2."
      ∧ remoteServiceAccountName "ns1" "c1" "ns2" true true = "argo.ns1.c1.ns2.rw" := by
  refine ⟨?_, rfl, rfl, rfl, rfl, ?_, by decide, by decide⟩
  · cases read <;> cases write <;> simp [remoteServiceAccountName, Spec.suffix]
  · simp [remoteServiceAccountName, String.ext_iff]

/-- C2: with two positional arguments the resource list has 3 + [read] + [write]
elements and is, in order, the ServiceAccount `name`, the Role argo-read, the Role
argo-write, the RoleBinding `argo-read.name` iff read, the RoleBinding
`argo-write.name` iff write; the two examples of the specification evaluate as written. -/
theorem RunE_resources_order (env : Env) (flags : Flags) (localCluster remoteCluster : String) :
    (RunE env flags [localCluster, remoteCluster]).resources.length
        = 3 + (if flags.read then 1 else 0) + (if flags.write then 1 else 0)
      ∧ (RunE env flags [localCluster, remoteCluster]).resources.map
            (fun o => (o.kind, o.name))
        = Spec.documents
            (remoteServiceAccountName flags.localNamespace localCluster
              flags.remoteNamespace flags.read flags.write) flags.read flags.write
      ∧ (RunE env (Flags.mk "ns1" "ns2" true true) ["c1", "c2"]).resources.map (fun o => (o.kind, o.name))
        = [("ServiceAccount", "argo.ns1.c1.ns2.rw"), ("Role", "argo-read"),
           ("Role", "argo-write"), ("RoleBinding", "argo-read.argo.ns1.c1.ns2.rw"),
           ("RoleBinding", "argo-write.argo.ns1.c1.ns2.rw")]
      ∧ (RunE env (Flags.mk "ns1" "ns2" false false) ["c1", "c2"]).resources.map (fun o => (o.kind, o.name))
        = [("ServiceAccount", "argo.ns1.c1.ns2."), ("Role", "argo-read"),
           ("Role", "argo-write")] := by
  refine ⟨?_, ?_, ?_, ?_⟩
  · rw [RunE_resources]
    cases flags.read <;> cases flags.write <;> simp
  · rw [RunE_resources]
    cases flags.read <;> cases flags.write <;> simp [Spec.documents, Object.kind, Object.name]
  · rw [RunE_resources]
    simp [Object.kind, Object.name]
    decide
  · rw [RunE_resources]
    simp [Object.kind, Object.name]
    decide

/-- C3: for every input with two positional arguments the Roles of the resource list
are exactly argo-read with the two rules [list, watch] on the task-result resource of
the workflow group and [list, watch] on pods, pods/exec of the core group, and
argo-write with the two rules [deletecollection] on the task-result resource and
[create, patch, delete] on pods, pods/exec; every verb of the read role is list or watch. -/
theorem RunE_role_rules (env : Env) (flags : Flags) (localCluster remoteCluster : String) :
    rolesOf (RunE env flags [localCluster, remoteCluster]).resources
        = [("argo-read",
            [{ Verbs := ["list", "watch"], APIGroups := [env.Group],
               Resources := [env.WorkflowTaskResultPlural] },
             { Verbs := ["list", "watch"], APIGroups := [""],
               Resources := ["pods", "pods/exec"] }]),
           ("argo-write",
            [{ Verbs := ["deletecollection"], APIGroups := [env.Group],
               Resources := [env.WorkflowTaskResultPlural] },
             { Verbs := ["create", "patch", "delete"], APIGroups := [""],
               Resources := ["pods", "pods/exec"] }])]
      ∧ (∀ p ∈ rolesOf (RunE env flags [localCluster, remoteCluster]).resources,
          p.1 = "argo-read" →
            p.2.length = 2 ∧ ∀ rule ∈ p.2, ∀ verb ∈ rule.Verbs, verb = "list" ∨ verb = "watch") := by
  have h : rolesOf (RunE env flags [localCluster, remoteCluster]).resources
        = [("argo-read",
            [{ Verbs := ["list", "watch"], APIGroups := [env.Group],
               Resources := [env.WorkflowTaskResultPlural] },
             { Verbs := ["list", "watch"], APIGroups := [""],
               Resources := ["pods", "pods/exec"] }]),
           ("argo-write",
            [{ Verbs := ["deletecollection"], APIGroups := [env.Group],
               Resources := [env.WorkflowTaskResultPlural] },
             { Verbs := ["create", "patch", "delete"], APIGroups := [""],
               Resources := ["pods", "pods/exec"] }])] := by
    rw [RunE_resources]
    cases flags.read <;> cases flags.write <;> simp [rolesOf]
  refine ⟨h, ?_⟩
  rw [h]
  intro p hp hname
  simp only [List.mem_cons, List.mem_singleton, List.not_mem_nil, or_false] at hp
  rcases hp with rfl | rfl
  · simp
  · simp at hname

/-- Witness for C3 at the sample environment: the read role is found there. -/
theorem RunE_role_rules_witness :
    ("argo-read",
        [({ Verbs := ["list", "watch"], APIGroups := ["argoproj.io"],
            Resources := ["workflowtaskresults"] } : PolicyRule),
         { Verbs := ["list", "watch"], APIGroups := [""],
           Resources := ["pods", "pods/exec"] }])
        ∈ rolesOf (RunE Env.sample {} ["c1", "c2"]).resources
      ∧ ∀ verb ∈ ["list", "watch"], verb = "list" ∨ verb = "watch" := by
  have h := RunE_role_rules Env.sample {} "c1" "c2"
  refine ⟨?_, ?_⟩
  · rw [h.1]; simp [Env.sample]
  · have h2 := (h.2 _ (by rw [h.1]; exact List.mem_cons_self _ _) rfl).2
    intro verb hv
    exact h2 _ (List.mem_cons_self _ _) verb hv

/-- The two binding-name prefixes differ, whatever follows them. -/
theorem read_prefix_ne_write_prefix (s t : String) : "argo-read." ++ s ≠ "argo-write." ++ t := by
  intro h
  have h2 := congrArg String.data h
  simp only [String.data_append] at h2
  have h3 := congrArg (fun l => l.get? 5) h2
  simp at h3

/-- C4: every RoleBinding of the resource list has the single subject of kind
ServiceAccount named like the emitted ServiceAccount, and a role reference of kind
Role in the group rbac.authorization.k8s.io; the binding `argo-read.name` refers to
argo-read and the binding `argo-write.name` to argo-write, never the other way round. -/
theorem RunE_role_bindings (env : Env) (flags : Flags) (localCluster remoteCluster : String) :
    (RunE env flags [localCluster, remoteCluster]).resources.head?
        = some (Object.ServiceAccount { Kind := "ServiceAccount", APIVersion := "v1" }
            { Name := remoteServiceAccountName flags.localNamespace localCluster
                flags.remoteNamespace flags.read flags.write })
      ∧ bindingsOf (RunE env flags [localCluster, remoteCluster]).resources
        = (if flags.read then
            [("argo-read." ++ remoteServiceAccountName flags.localNamespace localCluster
                flags.remoteNamespace flags.read flags.write,
              [{ Kind := "ServiceAccount",
                 Name := remoteServiceAccountName flags.localNamespace localCluster
                   flags.remoteNamespace flags.read flags.write }],
              { APIGroup := "rbac.authorization.k8s.io", Kind := "Role", Name := "argo-read" })]
           else [])
          ++ (if flags.write then
            [("argo-write." ++ remoteServiceAccountName flags.localNamespace localCluster
                flags.remoteNamespace flags.read flags.write,
              [{ Kind := "ServiceAccount",
                 Name := remoteServiceAccountName flags.localNamespace localCluster
                   flags.remoteNamespace flags.read flags.write }],
              { APIGroup := "rbac.authorization.k8s.io", Kind := "Role", Name := "argo-write" })]
           else [])
      ∧ (∀ b ∈ bindingsOf (RunE env flags [localCluster, remoteCluster]).resources,
          b.2.1 = [{ Kind := "ServiceAccount",
                     Name := remoteServiceAccountName flags.localNamespace localCluster
                       flags.remoteNamespace flags.read flags.write }]
          ∧ b.2.2.APIGroup = "rbac.authorization.k8s.io" ∧ b.2.2.Kind = "Role"
          ∧ (b.1 = "argo-read." ++ remoteServiceAccountName flags.localNamespace localCluster
                flags.remoteNamespace flags.read flags.write ↔ b.2.2.Name = "argo-read")
          ∧ (b.1 = "argo-write." ++ remoteServiceAccountName flags.localNamespace localCluster
                flags.remoteNamespace flags.read flags.write ↔ b.2.2.Name = "argo-write")
          ∧ (b.2.2.Name = "argo-read" ∨ b.2.2.Name = "argo-write")) := by
  obtain ⟨localNamespace, remoteNamespace, read, write⟩ := flags
  have hne := read_prefix_ne_write_prefix
    (remoteServiceAccountName localNamespace localCluster remoteNamespace read write)
    (remoteServiceAccountName localNamespace localCluster remoteNamespace read write)
  have hroles : ("argo-read" : String) ≠ "argo-write" := by decide
  refine ⟨?_, ?_, ?_⟩
  · rw [RunE_resources]; simp
  · rw [RunE_resources]
    cases read <;> cases write <;> simp [bindingsOf]
  · intro b hb
    rw [RunE_resources] at hb
    cases read <;> cases write <;>
      simp only [bindingsOf, if_true, if_false, List.append_nil, List.cons_append,
        List.nil_append, List.mem_cons, List.mem_singleton, List.not_mem_nil, or_false,
        Bool.false_eq_true] at hb
    · rcases hb with rfl
      exact ⟨rfl, rfl, rfl, ⟨fun h => absurd h.symm hne, fun h => absurd h.symm hroles⟩,
        ⟨fun _ => rfl, fun _ => rfl⟩, Or.inr rfl⟩
    · rcases hb with rfl
      exact ⟨rfl, rfl, rfl, ⟨fun _ => rfl, fun _ => rfl⟩,
        ⟨fun h => absurd h hne, fun h => absurd h hroles⟩, Or.inl rfl⟩
    · rcases hb with rfl | rfl
      · exact ⟨rfl, rfl, rfl, ⟨fun _ => rfl, fun _ => rfl⟩,
          ⟨fun h => absurd h hne, fun h => absurd h hroles⟩, Or.inl rfl⟩
      · exact ⟨rfl, rfl, rfl, ⟨fun h => absurd h.symm hne, fun h => absurd h.symm hroles⟩,
          ⟨fun _ => rfl, fun _ => rfl⟩, Or.inr rfl⟩

/-- Witness for C4: with both flags the read binding is in the list and refers to argo-read. -/
theorem RunE_role_bindings_witness :
    ("argo-read.argo.ns1.c1.ns2.rw",
        [({ Kind := "ServiceAccount", Name := "argo.ns1.c1.ns2.rw" } : Subject)],
        ({ APIGroup := "rbac.authorization.k8s.io", Kind := "Role", Name := "argo-read" }
          : RoleRef))
        ∈ bindingsOf (RunE Env.sample (Flags.mk "ns1" "ns2" true true) ["c1", "c2"]).resources
      ∧ ("argo-read" : String) = "argo-read" := by
  have h := RunE_role_bindings Env.sample (Flags.mk "ns1" "ns2" true true) "c1" "c2"
  have hmem : ("argo-read.argo.ns1.c1.ns2.rw",
        [({ Kind := "ServiceAccount", Name := "argo.ns1.c1.ns2.rw" } : Subject)],
        ({ APIGroup := "rbac.authorization.k8s.io", Kind := "Role", Name := "argo-read" }
          : RoleRef))
        ∈ bindingsOf (RunE Env.sample (Flags.mk "ns1" "ns2" true true)
            ["c1", "c2"]).resources := by
    rw [h.2.1]
    have hn : remoteServiceAccountName "ns1" "c1" "ns2" true true = "argo.ns1.c1.ns2.rw" := by
      decide
    simp only [hn]
    decide
  exact ⟨hmem, (h.2.2 _ hmem).2.2.2.1.1 (by decide)⟩

/-- C5, as stated, fails: three positional arguments are not fewer than two, yet the
command shows the help and exits with status 1 without emitting the manifest. -/
theorem RunE_three_args_exit_one :
    ¬ (["c1", "c2", "c3"].length < 2)
      ∧ RunE Env.sample {} ["c1", "c2", "c3"]
        = { resources := [], effects := [Effect.help ["c1", "c2", "c3"]],
            termination := Termination.exit 1 }
      ∧ exitCode (RunE Env.sample {} ["c1", "c2", "c3"]).termination = 1 := by
  refine ⟨by decide, ?_, ?_⟩
  · exact RunE_bad_arity _ _ _ (by decide)
  · rw [RunE_bad_arity _ _ _ (by decide)]; rfl

/-- C5, amended: the command fails (exit status 1, help shown, nothing else done)
exactly when the number of positional arguments is not two; with exactly two it
returns nil (exit status 0) after writing the two header lines and, for each resource
in order, a separator line and its serialization, whatever the four options are. -/
theorem RunE_fails_iff_not_two_args (env : Env) (flags : Flags) (args : List String) :
    (exitCode (RunE env flags args).termination = 1 ↔ args.length ≠ 2)
      ∧ (exitCode (RunE env flags args).termination = 0 ↔ args.length = 2)
      ∧ ((RunE env flags args).termination = Termination.exit 1 ↔ args.length ≠ 2)
      ∧ ((RunE env flags args).termination = Termination.returnNil ↔ args.length = 2)
      ∧ ((RunE env flags args).effects = [Effect.help args] ↔ args.length ≠ 2)
      ∧ (∀ localCluster remoteCluster : String,
          (RunE env flags [localCluster, remoteCluster]).effects
            = [Effect.write "# This is an auto-generated file. DO NOT EDIT\n",
               Effect.write ("# namespace " ++ Quote env.isPrintTable flags.localNamespace
                 ++ " in cluster " ++ Quote env.isPrintTable localCluster
                 ++ " to namespace " ++ Quote env.isPrintTable flags.remoteNamespace
                 ++ " in cluster " ++ Quote env.isPrintTable remoteCluster ++ "\n")]
              ++ (RunE env flags [localCluster, remoteCluster]).resources.flatMap
                   (fun r => [Effect.write "---\n", Effect.write (env.Marshal r)])) := by
  have key : args.length ≠ 2 ∨ ∃ a b, args = [a, b] := by
    match args with
    | [] => exact Or.inl (by simp)
    | [_] => exact Or.inl (by simp)
    | [a, b] => exact Or.inr ⟨a, b, rfl⟩
    | _ :: _ :: _ :: _ => exact Or.inl (by simp)
  refine ⟨?_, ?_, ?_, ?_, ?_, fun lc rc => RunE_effects env flags lc rc⟩ <;>
    rcases key with h | ⟨a, b, rfl⟩
  · simp [RunE_bad_arity env flags args h, exitCode, h]
  · simp [RunE_termination, exitCode]
  · simp [RunE_bad_arity env flags args h, exitCode, h]
  · simp [RunE_termination, exitCode]
  · simp [RunE_bad_arity env flags args h, h]
  · simp [RunE_termination]
  · simp [RunE_bad_arity env flags args h, h]
  · simp [RunE_termination]
  · simp [RunE_bad_arity env flags args h, h]
  · simp [RunE_effects]

/-- C6: with zero or one positional argument the run ends in `os.Exit(1)` having only
shown the help: no resource was built and nothing was written, neither a header
line nor a separator nor a document. -/
theorem RunE_too_few_args (env : Env) (flags : Flags) (args : List String)
    (h : args.length = 0 ∨ args.length = 1) :
    (RunE env flags args).termination = Termination.exit 1
      ∧ exitCode (RunE env flags args).termination = 1
      ∧ (RunE env flags args).resources = []
      ∧ (RunE env flags args).effects = [Effect.help args]
      ∧ ∀ s, Effect.write s ∉ (RunE env flags args).effects := by
  have h2 : args.length ≠ 2 := by omega
  rw [RunE_bad_arity env flags args h2]
  simp [exitCode]

/-- Witness for C6 at a single positional argument. -/
theorem RunE_too_few_args_witness :
    (["c1"].length = 0 ∨ ["c1"].length = 1)
      ∧ exitCode (RunE Env.sample (Flags.mk "ns1" "ns2" true true) ["c1"]).termination = 1
      ∧ (RunE Env.sample (Flags.mk "ns1" "ns2" true true) ["c1"]).effects
        = [Effect.help ["c1"]] :=
  ⟨Or.inr rfl,
   (RunE_too_few_args Env.sample (Flags.mk "ns1" "ns2" true true) ["c1"] (Or.inr rfl)).2.1,
   (RunE_too_few_args Env.sample (Flags.mk "ns1" "ns2" true true) ["c1"] (Or.inr rfl)).2.2.2.1⟩

/-! ### Quoting -/

theorem quotedRunes_eq_flatMap (isPrintTable : Nat → Bool) (cs : List Char) :
    quotedRunes isPrintTable cs = cs.flatMap (appendEscapedRune isPrintTable) := by
  induction cs with
  | nil => rfl
  | cons c rest ih => simp [quotedRunes, ih]

theorem hexDigit_ne_newline (n : Nat) : hexDigit n ≠ newline := by
  have key : ∀ m, m < 16 → lowerhex.getD m '0' ≠ newline := by decide
  exact key (n % 16) (Nat.mod_lt _ (by decide))

theorem toNat_newline : newline.toNat = 10 := by decide

theorem newline_not_mem_appendEscapedRune (isPrintTable : Nat → Bool) (r : Char) :
    newline ∉ appendEscapedRune isPrintTable r := by
  have hb : newline ≠ backslash := by decide
  have hh : ∀ n, newline ≠ hexDigit n := fun n h => hexDigit_ne_newline n h.symm
  by_cases h1 : r.toNat = 0x22 ∨ r.toNat = 0x5C
  · have hr : newline ≠ r := by
      intro e
      rw [← e, toNat_newline] at h1
      omega
    simp only [appendEscapedRune, if_pos h1, List.mem_cons, List.not_mem_nil, or_false, not_or]
    exact ⟨hb, hr⟩
  by_cases h2 : IsPrint isPrintTable r.toNat = true
  · have hr : newline ≠ r := by
      intro e
      rw [← e, toNat_newline] at h2
      simp [IsPrint] at h2
    simp only [appendEscapedRune, if_neg h1, if_pos h2, List.mem_cons, List.not_mem_nil, or_false]
    exact hr
  simp only [appendEscapedRune, if_neg h1, if_neg h2]
  repeat' split
  all_goals
    simp only [List.mem_cons, List.not_mem_nil, or_false, not_or]
    refine ⟨hb, ?_⟩
    first
      | exact by decide
      | exact ⟨by decide, hh _, hh _⟩
      | exact ⟨by decide, hh _, hh _, hh _, hh _⟩
      | exact ⟨by decide, hh _, hh _, hh _, hh _, hh _, hh _, hh _, hh _⟩

theorem newline_not_mem_quotedRunes (isPrintTable : Nat → Bool) (cs : List Char) :
    newline ∉ quotedRunes isPrintTable cs := by
  induction cs with
  | nil => simp [quotedRunes]
  | cons c rest ih =>
    simp only [quotedRunes, List.mem_append, not_or]
    exact ⟨newline_not_mem_appendEscapedRune isPrintTable c, ih⟩

theorem newline_not_mem_Quote (isPrintTable : Nat → Bool) (s : String) :
    newline ∉ (Quote isPrintTable s).data := by
  have hq : newline ≠ dquote := by decide
  simp only [Quote, List.mem_cons, List.mem_append, List.mem_singleton, not_or, List.not_mem_nil,
    or_false]
  exact ⟨hq, newline_not_mem_quotedRunes isPrintTable s.data, hq⟩

theorem quotedRunes_plain (isPrintTable : Nat → Bool) (cs : List Char)
    (h : ∀ c ∈ cs, 0x20 ≤ c.toNat ∧ c.toNat ≤ 0x7E ∧ c.toNat ≠ 0x22 ∧ c.toNat ≠ 0x5C) :
    quotedRunes isPrintTable cs = cs := by
  induction cs with
  | nil => rfl
  | cons c rest ih =>
    have hc := h c (List.mem_cons_self _ _)
    have hrest := ih (fun d hd => h d (List.mem_cons_of_mem _ hd))
    have h1 : ¬ (c.toNat = 0x22 ∨ c.toNat = 0x5C) := by omega
    have h2 : IsPrint isPrintTable c.toNat = true := by
      have h3 : c.toNat ≤ 0xFF := by omega
      simp [IsPrint, h3, hc.1, hc.2.1]
    simp [quotedRunes, appendEscapedRune, h1, h2, hrest]

theorem Quote_data (isPrintTable : Nat → Bool) (s : String) :
    (Quote isPrintTable s).data
      = dquote :: (s.data.flatMap (appendEscapedRune isPrintTable) ++ [dquote]) := by
  simp [Quote, quotedRunes_eq_flatMap]

theorem RunE_names (env : Env) (flags : Flags) (localCluster remoteCluster : String) :
    (RunE env flags [localCluster, remoteCluster]).resources.map Object.name
      = ["argo." ++ flags.localNamespace ++ "." ++ localCluster ++ "."
            ++ flags.remoteNamespace ++ "." ++ Spec.suffix flags.read flags.write,
         "argo-read", "argo-write"]
        ++ (if flags.read then
              ["argo-read." ++ ("argo." ++ flags.localNamespace ++ "." ++ localCluster ++ "."
                ++ flags.remoteNamespace ++ "." ++ Spec.suffix flags.read flags.write)]
            else [])
        ++ (if flags.write then
              ["argo-write." ++ ("argo." ++ flags.localNamespace ++ "." ++ localCluster ++ "."
                ++ flags.remoteNamespace ++ "." ++ Spec.suffix flags.read flags.write)]
            else []) := by
  rw [RunE_resources]
  cases flags.read <;> cases flags.write <;>
    simp [Object.name, remoteServiceAccountName, Spec.suffix]

set_option maxRecDepth 100000 in
/-- C7, as stated, fails for the header comment line: with a double quote in the local
namespace, a backslash in the local cluster and a line feed in the remote namespace,
the line written holds the escaped forms and none of the three values occurs in it. -/
theorem header_line_escapes :
    (RunE Env.sample (Flags.mk "a\"b" "x\ny" false false) ["c\\1", "c2"]).effects.get? 1
        = some (Effect.write
            "# namespace \"a\\\"b\" in cluster \"c\\\\1\" to namespace \"x\\ny\" in cluster \"c2\"\n")
      ∧ ¬ ("a\"b".data <:+:
            "# namespace \"a\\\"b\" in cluster \"c\\\\1\" to namespace \"x\\ny\" in cluster \"c2\"\n".data)
      ∧ ¬ ("c\\1".data <:+:
            "# namespace \"a\\\"b\" in cluster \"c\\\\1\" to namespace \"x\\ny\" in cluster \"c2\"\n".data)
      ∧ ¬ ("x\ny".data <:+:
            "# namespace \"a\\\"b\" in cluster \"c\\\\1\" to namespace \"x\\ny\" in cluster \"c2\"\n".data) := by
  refine ⟨?_, by decide, by decide, by decide⟩
  rw [RunE_effects]
  decide

/-- C7, amended: the values of localNamespace, localCluster and remoteNamespace are
interpolated verbatim into the ServiceAccount and RoleBinding names; into the header
comment line each of the four values is written in quoted form: between double
quotes, rune by rune, a double quote and a backslash preceded by a backslash, a line
feed as backslash-n; a value of printable ASCII characters other than those two is
unchanged between the quotes. -/
theorem names_verbatim_header_quoted (env : Env) (flags : Flags)
    (localCluster remoteCluster : String) :
    (RunE env flags [localCluster, remoteCluster]).resources.map Object.name
        = ["argo." ++ flags.localNamespace ++ "." ++ localCluster ++ "."
              ++ flags.remoteNamespace ++ "." ++ Spec.suffix flags.read flags.write,
           "argo-read", "argo-write"]
          ++ (if flags.read then
                ["argo-read." ++ ("argo." ++ flags.localNamespace ++ "." ++ localCluster ++ "."
                  ++ flags.remoteNamespace ++ "." ++ Spec.suffix flags.read flags.write)]
              else [])
          ++ (if flags.write then
                ["argo-write." ++ ("argo." ++ flags.localNamespace ++ "." ++ localCluster ++ "."
                  ++ flags.remoteNamespace ++ "." ++ Spec.suffix flags.read flags.write)]
              else [])
      ∧ (RunE env flags [localCluster, remoteCluster]).effects.get? 1
        = some (Effect.write ("# namespace " ++ Quote env.isPrintTable flags.localNamespace
            ++ " in cluster " ++ Quote env.isPrintTable localCluster
            ++ " to namespace " ++ Quote env.isPrintTable flags.remoteNamespace
            ++ " in cluster " ++ Quote env.isPrintTable remoteCluster ++ "\n"))
      ∧ (∀ s : String, (Quote env.isPrintTable s).data
          = dquote :: (s.data.flatMap (appendEscapedRune env.isPrintTable) ++ [dquote]))
      ∧ appendEscapedRune env.isPrintTable dquote = [backslash, dquote]
      ∧ appendEscapedRune env.isPrintTable backslash = [backslash, backslash]
      ∧ appendEscapedRune env.isPrintTable newline = [backslash, 'n']
      ∧ (∀ s : String,
          (∀ c ∈ s.data, 0x20 ≤ c.toNat ∧ c.toNat ≤ 0x7E ∧ c.toNat ≠ 0x22 ∧ c.toNat ≠ 0x5C) →
            Quote env.isPrintTable s = "\"" ++ s ++ "\"") := by
  refine ⟨RunE_names env flags localCluster remoteCluster, ?_, Quote_data env.isPrintTable,
    ?_, ?_, ?_, ?_⟩
  · rw [RunE_effects]; rfl
  · simp [appendEscapedRune, dquote]
  · simp [appendEscapedRune, backslash]
  · have h1 : ¬ (newline.toNat = 0x22 ∨ newline.toNat = 0x5C) := by decide
    have h2 : ¬ (IsPrint env.isPrintTable newline.toNat = true) := by
      rw [toNat_newline]; simp [IsPrint]
    have h3 : ¬ (newline.toNat = 0x07) := by decide
    have h4 : ¬ (newline.toNat = 0x08) := by decide
    have h5 : ¬ (newline.toNat = 0x0C) := by decide
    have h6 : newline.toNat = 0x0A := by decide
    simp only [appendEscapedRune, if_neg h1, if_neg h2, if_neg h3, if_neg h4, if_neg h5,
      if_pos h6]
  · intro s hs
    apply String.ext
    simp only [Quote, String.data_append, quotedRunes_plain env.isPrintTable s.data hs]
    rfl

/-- Witness for C7 (amended): the plain value ns1 is unchanged between the quotes. -/
theorem names_verbatim_header_quoted_witness :
    (∀ c ∈ "ns1".data, 0x20 ≤ c.toNat ∧ c.toNat ≤ 0x7E ∧ c.toNat ≠ 0x22 ∧ c.toNat ≠ 0x5C)
      ∧ Quote Env.sample.isPrintTable "ns1" = "\"" ++ "ns1" ++ "\"" :=
  ⟨by decide,
   (names_verbatim_header_quoted Env.sample {} "c1" "c2").2.2.2.2.2.2 "ns1" (by decide)⟩

/-! ### The layout of the output -/

theorem appendEscapedRune_dquote (isPrintTable : Nat → Bool) :
    appendEscapedRune isPrintTable dquote = [backslash, dquote] := by
  simp [appendEscapedRune, dquote]

theorem appendEscapedRune_backslash (isPrintTable : Nat → Bool) :
    appendEscapedRune isPrintTable backslash = [backslash, backslash] := by
  simp [appendEscapedRune, backslash]

theorem appendEscapedRune_newline (isPrintTable : Nat → Bool) :
    appendEscapedRune isPrintTable newline = [backslash, 'n'] := by
  have h1 : ¬ (newline.toNat = 0x22 ∨ newline.toNat = 0x5C) := by decide
  have h2 : ¬ (IsPrint isPrintTable newline.toNat = true) := by
    rw [toNat_newline]; simp [IsPrint]
  have h3 : ¬ (newline.toNat = 0x07) := by decide
  have h4 : ¬ (newline.toNat = 0x08) := by decide
  have h5 : ¬ (newline.toNat = 0x0C) := by decide
  have h6 : newline.toNat = 0x0A := by decide
  simp only [appendEscapedRune, if_neg h1, if_neg h2, if_neg h3, if_neg h4, if_neg h5,
    if_pos h6]

theorem Quote_plain (isPrintTable : Nat → Bool) (s : String)
    (h : ∀ c ∈ s.data, 0x20 ≤ c.toNat ∧ c.toNat ≤ 0x7E ∧ c.toNat ≠ 0x22 ∧ c.toNat ≠ 0x5C) :
    Quote isPrintTable s = "\"" ++ s ++ "\"" := by
  apply String.ext
  simp only [Quote, String.data_append, quotedRunes_plain isPrintTable s.data h]
  rfl

theorem emitted_get? (env : Env) (rs : List Object) (i : Nat) :
    (rs.flatMap (fun r => [Effect.write "---\n", Effect.write (env.Marshal r)])).get? (2 * i)
        = (rs.get? i).map (fun _ => Effect.write "---\n")
      ∧ (rs.flatMap (fun r => [Effect.write "---\n", Effect.write (env.Marshal r)])).get?
          (2 * i + 1)
        = (rs.get? i).map (fun r => Effect.write (env.Marshal r)) := by
  induction rs generalizing i with
  | nil => simp
  | cons r rest ih =>
    cases i with
    | zero => simp
    | succ j =>
      have e1 : 2 * (j + 1) = (2 * j) + 1 + 1 := by ring
      have e2 : 2 * (j + 1) + 1 = (2 * j + 1) + 1 + 1 := by ring
      have := ih j
      simp only [List.flatMap_cons, List.cons_append, List.nil_append, e1, e2,
        List.get?_cons_succ]
      exact this

theorem emitted_length (env : Env) (rs : List Object) :
    (rs.flatMap (fun r => [Effect.write "---\n", Effect.write (env.Marshal r)])).length
      = 2 * rs.length := by
  induction rs with
  | nil => rfl
  | cons r rest ih => simp [List.flatMap_cons, ih]; omega

theorem emitted_count (env : Env) (rs : List Object)
    (h : ∀ r ∈ rs, env.Marshal r ≠ "---\n") :
    (rs.flatMap (fun r => [Effect.write "---\n", Effect.write (env.Marshal r)])).count
        (Effect.write "---\n")
      = rs.length := by
  induction rs with
  | nil => rfl
  | cons r rest ih =>
    have hr : env.Marshal r ≠ "---\n" := h r (List.mem_cons_self _ _)
    have hrest := ih (fun d hd => h d (List.mem_cons_of_mem _ hd))
    have hne : (Effect.write (env.Marshal r) == Effect.write "---\n") = false := by
      simp [hr]
    simp only [List.flatMap_cons, List.cons_append, List.nil_append, List.count_cons, hrest,
      beq_self_eq_true, if_true, hne, Bool.false_eq_true, if_false, List.length_cons]

theorem header_ne_separator (rest : String) : "# namespace " ++ rest ≠ "---\n" := by
  intro h
  have h2 := congrArg (fun t => t.data.head?) h
  simp [String.data_append] at h2

set_option maxRecDepth 100000 in
/-- C8: with two positional arguments the writes are exactly the auto-generation line,
the comment line `# namespace Q in cluster Q to namespace Q in cluster Q` holding the
quoted local namespace, local cluster, remote namespace and remote cluster in that
order (a single line: its only line feed is its last character; plain values stand
unchanged between double quotes), then for each resource in list order the line
"---" and the resource's serialization; the separators stand at the even positions
after the header and number 3 + [read] + [write]. -/
theorem RunE_output_layout (env : Env) (flags : Flags) (localCluster remoteCluster : String) :
    (RunE env flags [localCluster, remoteCluster]).effects
        = [Effect.write "# This is an auto-generated file. DO NOT EDIT\n",
           Effect.write ("# namespace " ++ Quote env.isPrintTable flags.localNamespace
             ++ " in cluster " ++ Quote env.isPrintTable localCluster
             ++ " to namespace " ++ Quote env.isPrintTable flags.remoteNamespace
             ++ " in cluster " ++ Quote env.isPrintTable remoteCluster ++ "\n")]
          ++ (RunE env flags [localCluster, remoteCluster]).resources.flatMap
               (fun r => [Effect.write "---\n", Effect.write (env.Marshal r)])
      ∧ ("# namespace " ++ Quote env.isPrintTable flags.localNamespace
            ++ " in cluster " ++ Quote env.isPrintTable localCluster
            ++ " to namespace " ++ Quote env.isPrintTable flags.remoteNamespace
            ++ " in cluster " ++ Quote env.isPrintTable remoteCluster ++ "\n").data
          = '#' :: ' ' :: (("namespace " ++ Quote env.isPrintTable flags.localNamespace
              ++ " in cluster " ++ Quote env.isPrintTable localCluster
              ++ " to namespace " ++ Quote env.isPrintTable flags.remoteNamespace
              ++ " in cluster " ++ Quote env.isPrintTable remoteCluster).data ++ [newline])
      ∧ newline ∉ ("namespace " ++ Quote env.isPrintTable flags.localNamespace
            ++ " in cluster " ++ Quote env.isPrintTable localCluster
            ++ " to namespace " ++ Quote env.isPrintTable flags.remoteNamespace
            ++ " in cluster " ++ Quote env.isPrintTable remoteCluster).data
      ∧ (∀ s : String, (Quote env.isPrintTable s).data
          = dquote :: (s.data.flatMap (appendEscapedRune env.isPrintTable) ++ [dquote]))
      ∧ appendEscapedRune env.isPrintTable dquote = [backslash, dquote]
      ∧ appendEscapedRune env.isPrintTable backslash = [backslash, backslash]
      ∧ appendEscapedRune env.isPrintTable newline = [backslash, 'n']
      ∧ ((∀ c ∈ flags.localNamespace.data,
            0x20 ≤ c.toNat ∧ c.toNat ≤ 0x7E ∧ c.toNat ≠ 0x22 ∧ c.toNat ≠ 0x5C) →
          (∀ c ∈ localCluster.data,
            0x20 ≤ c.toNat ∧ c.toNat ≤ 0x7E ∧ c.toNat ≠ 0x22 ∧ c.toNat ≠ 0x5C) →
          (∀ c ∈ flags.remoteNamespace.data,
            0x20 ≤ c.toNat ∧ c.toNat ≤ 0x7E ∧ c.toNat ≠ 0x22 ∧ c.toNat ≠ 0x5C) →
          (∀ c ∈ remoteCluster.data,
            0x20 ≤ c.toNat ∧ c.toNat ≤ 0x7E ∧ c.toNat ≠ 0x22 ∧ c.toNat ≠ 0x5C) →
          (RunE env flags [localCluster, remoteCluster]).effects.get? 1
            = some (Effect.write ("# namespace \"" ++ flags.localNamespace
                ++ "\" in cluster \"" ++ localCluster
                ++ "\" to namespace \"" ++ flags.remoteNamespace
                ++ "\" in cluster \"" ++ remoteCluster ++ "\"\n")))
      ∧ (RunE env (Flags.mk "ns1" "ns2" true true) ["c1", "c2"]).effects.get? 1
          = some (Effect.write
              "# namespace \"ns1\" in cluster \"c1\" to namespace \"ns2\" in cluster \"c2\"\n")
      ∧ (RunE (Env.mk env.Group env.WorkflowTaskResultPlural (fun r => r == 0x1F600) env.Marshal)
            (Flags.mk
              (String.mk [Char.ofNat 0x07, Char.ofNat 0x08, Char.ofNat 0x0C, Char.ofNat 0x0A,
                Char.ofNat 0x0D, Char.ofNat 0x09, Char.ofNat 0x0B])
              (String.mk [Char.ofNat 0x01, Char.ofNat 0x7F, Char.ofNat 0xE9, Char.ofNat 0xAD])
              false false)
            [String.mk [Char.ofNat 0x2028, Char.ofNat 0x1F600, Char.ofNat 0x10FFFF],
             String.mk ['a', Char.ofNat 0x22, 'b', Char.ofNat 0x5C, 'c', ' ', '~']]).effects.get? 1
          = some (Effect.write (String.mk ("# namespace ".data
              ++ [dquote] ++ "\\a\\b\\f\\n\\r\\t\\v".data ++ [dquote]
              ++ " in cluster ".data
              ++ [dquote] ++ "\\u2028".data ++ [Char.ofNat 0x1F600] ++ "\\U0010ffff".data
              ++ [dquote]
              ++ " to namespace ".data
              ++ [dquote] ++ "\\x01\\x7f".data ++ [Char.ofNat 0xE9] ++ "\\u00ad".data ++ [dquote]
              ++ " in cluster ".data
              ++ [dquote] ++ "a\\\"b\\\\c ~".data ++ [dquote] ++ [newline])))
      ∧ (RunE env flags [localCluster, remoteCluster]).resources.length
          = 3 + (if flags.read then 1 else 0) + (if flags.write then 1 else 0)
      ∧ (RunE env flags [localCluster, remoteCluster]).effects.length
          = 2 + 2 * (3 + (if flags.read then 1 else 0) + (if flags.write then 1 else 0))
      ∧ (∀ i, i < (RunE env flags [localCluster, remoteCluster]).resources.length →
          (RunE env flags [localCluster, remoteCluster]).effects.get? (2 + 2 * i)
            = some (Effect.write "---\n")
          ∧ (RunE env flags [localCluster, remoteCluster]).effects.get? (2 + 2 * i + 1)
            = ((RunE env flags [localCluster, remoteCluster]).resources.get? i).map
                (fun r => Effect.write (env.Marshal r)))
      ∧ ((∀ r ∈ (RunE env flags [localCluster, remoteCluster]).resources,
            env.Marshal r ≠ "---\n") →
          (RunE env flags [localCluster, remoteCluster]).effects.count (Effect.write "---\n")
            = 3 + (if flags.read then 1 else 0) + (if flags.write then 1 else 0)) := by
  have hlen : (RunE env flags [localCluster, remoteCluster]).resources.length
      = 3 + (if flags.read then 1 else 0) + (if flags.write then 1 else 0) := by
    rw [RunE_resources]
    cases flags.read <;> cases flags.write <;> simp
  refine ⟨RunE_effects env flags localCluster remoteCluster, ?_, ?_,
    Quote_data env.isPrintTable, appendEscapedRune_dquote _, appendEscapedRune_backslash _,
    appendEscapedRune_newline _, ?_, ?_, ?_, hlen, ?_, ?_, ?_⟩
  · simp only [String.data_append, List.append_assoc]
    rfl
  · have h1 : newline ∉ "namespace ".data := by decide
    have h2 : newline ∉ " in cluster ".data := by decide
    have h3 : newline ∉ " to namespace ".data := by decide
    simp only [String.data_append, List.mem_append, not_or]
    exact ⟨⟨⟨⟨⟨⟨⟨h1, newline_not_mem_Quote _ _⟩, h2⟩, newline_not_mem_Quote _ _⟩, h3⟩,
      newline_not_mem_Quote _ _⟩, h2⟩, newline_not_mem_Quote _ _⟩
  · intro p1 p2 p3 p4
    rw [RunE_effects, Quote_plain _ _ p1, Quote_plain _ _ p2, Quote_plain _ _ p3,
      Quote_plain _ _ p4]
    simp only [List.cons_append, List.nil_append, List.get?_cons_succ, List.get?_cons_zero,
      Option.some.injEq, Effect.write.injEq]
    apply String.ext
    simp only [String.data_append, List.append_assoc]
    rfl
  · rw [RunE_effects]
    simp only [List.cons_append, List.nil_append, List.get?_cons_succ, List.get?_cons_zero,
      Option.some.injEq, Effect.write.injEq]
    rw [Quote_plain _ "ns1" (by decide), Quote_plain _ "c1" (by decide),
      Quote_plain _ "ns2" (by decide), Quote_plain _ "c2" (by decide)]
    decide
  · rw [RunE_effects]
    simp only [List.cons_append, List.nil_append, List.get?_cons_succ, List.get?_cons_zero,
      Option.some.injEq, Effect.write.injEq]
    decide
  · rw [RunE_effects, List.length_append, emitted_length, hlen]
    rfl
  · intro i hi
    rw [RunE_effects]
    have e1 : 2 + 2 * i = (2 * i) + 1 + 1 := by ring
    have e2 : 2 + 2 * i + 1 = (2 * i + 1) + 1 + 1 := by ring
    have hg : ∃ r, (RunE env flags [localCluster, remoteCluster]).resources.get? i = some r :=
      ⟨_, List.get?_eq_get hi⟩
    obtain ⟨r, hr⟩ := hg
    have := emitted_get? env (RunE env flags [localCluster, remoteCluster]).resources i
    simp only [List.cons_append, List.nil_append, e1, e2, List.get?_cons_succ, this.1, this.2, hr,
      Option.map_some', and_self]
  · intro hm
    have hsep : (Effect.write "# This is an auto-generated file. DO NOT EDIT\n"
        == Effect.write "---\n") = false := by decide
    have hhdr : (Effect.write ("# namespace " ++ Quote env.isPrintTable flags.localNamespace
             ++ " in cluster " ++ Quote env.isPrintTable localCluster
             ++ " to namespace " ++ Quote env.isPrintTable flags.remoteNamespace
             ++ " in cluster " ++ Quote env.isPrintTable remoteCluster ++ "\n")
        == Effect.write "---\n") = false := by
      have := header_ne_separator (Quote env.isPrintTable flags.localNamespace
             ++ " in cluster " ++ Quote env.isPrintTable localCluster
             ++ " to namespace " ++ Quote env.isPrintTable flags.remoteNamespace
             ++ " in cluster " ++ Quote env.isPrintTable remoteCluster ++ "\n")
      simp only [← String.append_assoc] at this
      simp [this]
    rw [RunE_effects, List.count_append, emitted_count env _ hm, hlen]
    simp only [List.count_cons, List.count_nil, hsep, hhdr, Bool.false_eq_true, if_false]
    omega

/-- Witness for C8 at c1, c2, ns1, ns2 with both flags: the values are plain, no
serialization of the sample marshaller is a separator line, and the first resource exists. -/
theorem RunE_output_layout_witness :
    ((∀ c ∈ "ns1".data, 0x20 ≤ c.toNat ∧ c.toNat ≤ 0x7E ∧ c.toNat ≠ 0x22 ∧ c.toNat ≠ 0x5C)
      ∧ (∀ c ∈ "c1".data, 0x20 ≤ c.toNat ∧ c.toNat ≤ 0x7E ∧ c.toNat ≠ 0x22 ∧ c.toNat ≠ 0x5C)
      ∧ (∀ c ∈ "ns2".data, 0x20 ≤ c.toNat ∧ c.toNat ≤ 0x7E ∧ c.toNat ≠ 0x22 ∧ c.toNat ≠ 0x5C)
      ∧ (∀ c ∈ "c2".data, 0x20 ≤ c.toNat ∧ c.toNat ≤ 0x7E ∧ c.toNat ≠ 0x22 ∧ c.toNat ≠ 0x5C))
      ∧ (RunE Env.sample (Flags.mk "ns1" "ns2" true true) ["c1", "c2"]).effects.get? 1
        = some (Effect.write ("# namespace \"" ++ "ns1" ++ "\" in cluster \"" ++ "c1"
            ++ "\" to namespace \"" ++ "ns2" ++ "\" in cluster \"" ++ "c2" ++ "\"\n"))
      ∧ 0 < (RunE Env.sample (Flags.mk "ns1" "ns2" true true) ["c1", "c2"]).resources.length
      ∧ (RunE Env.sample (Flags.mk "ns1" "ns2" true true) ["c1", "c2"]).effects.get? 2
        = some (Effect.write "---\n")
      ∧ (∀ r ∈ (RunE Env.sample (Flags.mk "ns1" "ns2" true true) ["c1", "c2"]).resources,
          Env.sample.Marshal r ≠ "---\n")
      ∧ (RunE Env.sample (Flags.mk "ns1" "ns2" true true) ["c1", "c2"]).effects.count
          (Effect.write "---\n") = 5 := by
  have hpos : 0 < (RunE Env.sample (Flags.mk "ns1" "ns2" true true)
      ["c1", "c2"]).resources.length := by
    rw [RunE_resources]; simp
  have hm : ∀ r ∈ (RunE Env.sample (Flags.mk "ns1" "ns2" true true) ["c1", "c2"]).resources,
      Env.sample.Marshal r ≠ "---\n" := by
    intro r _ h
    have h2 := congrArg String.data h
    simp only [Env.sample, String.data_append] at h2
    have h3 := congrArg (fun l => decide ('/' ∈ l)) h2
    simp at h3
  have h := RunE_output_layout Env.sample (Flags.mk "ns1" "ns2" true true) "c1" "c2"
  exact ⟨⟨by decide, by decide, by decide, by decide⟩,
    h.2.2.2.2.2.2.2.1 (by decide) (by decide) (by decide) (by decide),
    hpos, (h.2.2.2.2.2.2.2.2.2.2.2.2.1 0 hpos).1, hm, h.2.2.2.2.2.2.2.2.2.2.2.2.2 hm⟩

/-! ### Injectivity of the name -/

theorem eq_of_append_dot (x y r t : List Char) (hx : '.' ∉ x) (hy : '.' ∉ y)
    (h : x ++ '.' :: r = y ++ '.' :: t) : x = y ∧ r = t := by
  induction x generalizing y with
  | nil =>
    cases y with
    | nil => simpa using h
    | cons d y2 =>
      simp only [List.nil_append, List.cons_append, List.cons.injEq] at h
      exact absurd (h.1 ▸ List.mem_cons_self _ _) hy
  | cons c x2 ih =>
    cases y with
    | nil =>
      simp only [List.nil_append, List.cons_append, List.cons.injEq] at h
      exact absurd (h.1 ▸ List.mem_cons_self _ _) hx
    | cons d y2 =>
      simp only [List.cons_append, List.cons.injEq] at h
      have hx2 : '.' ∉ x2 := fun hm => hx (List.mem_cons_of_mem _ hm)
      have hy2 : '.' ∉ y2 := fun hm => hy (List.mem_cons_of_mem _ hm)
      obtain ⟨e1, e2⟩ := ih y2 hx2 hy2 h.2
      exact ⟨by rw [h.1, e1], e2⟩

theorem suffix_injective (read write read2 write2 : Bool)
    (h : (Spec.suffix read write).data = (Spec.suffix read2 write2).data) :
    read = read2 ∧ write = write2 := by
  revert h
  cases read <;> cases write <;> cases read2 <;> cases write2 <;> decide

/-- C9: on strings without a dot the name determines its five inputs: equal names
force equal local namespaces, local clusters, remote namespaces and flags. -/
theorem remoteServiceAccountName_injective
    (localNamespace localCluster remoteNamespace : String) (read write : Bool)
    (localNamespace2 localCluster2 remoteNamespace2 : String) (read2 write2 : Bool)
    (h1 : '.' ∉ localNamespace.data) (h2 : '.' ∉ localCluster.data)
    (h3 : '.' ∉ remoteNamespace.data) (h4 : '.' ∉ localNamespace2.data)
    (h5 : '.' ∉ localCluster2.data) (h6 : '.' ∉ remoteNamespace2.data)
    (h : remoteServiceAccountName localNamespace localCluster remoteNamespace read write
      = remoteServiceAccountName localNamespace2 localCluster2 remoteNamespace2 read2 write2) :
    localNamespace = localNamespace2 ∧ localCluster = localCluster2
      ∧ remoteNamespace = remoteNamespace2 ∧ read = read2 ∧ write = write2 := by
  have ha : ∀ (a b c : String) (r w : Bool),
      (remoteServiceAccountName a b c r w).data
        = "argo.".data ++ (a.data ++ '.' :: (b.data ++ '.' :: (c.data ++ '.' ::
            (Spec.suffix r w).data))) := by
    intro a b c r w
    cases r <;> cases w <;>
      simp [remoteServiceAccountName, Spec.suffix, String.data_append]
  have hd := congrArg String.data h
  rw [ha, ha] at hd
  have hd2 := List.append_cancel_left hd
  obtain ⟨e1, r1⟩ := eq_of_append_dot _ _ _ _ h1 h4 hd2
  obtain ⟨e2, r2⟩ := eq_of_append_dot _ _ _ _ h2 h5 r1
  obtain ⟨e3, r3⟩ := eq_of_append_dot _ _ _ _ h3 h6 r2
  obtain ⟨e4, e5⟩ := suffix_injective _ _ _ _ r3
  exact ⟨String.ext e1, String.ext e2, String.ext e3, e4, e5⟩

/-- Witness for C9: the hypotheses hold at ns1, c1, ns2 with the flags read, write. -/
theorem remoteServiceAccountName_injective_witness :
    ('.' ∉ "ns1".data ∧ '.' ∉ "c1".data ∧ '.' ∉ "ns2".data)
      ∧ remoteServiceAccountName "ns1" "c1" "ns2" true false
        = remoteServiceAccountName "ns1" "c1" "ns2" true false
      ∧ ("ns1" = "ns1" ∧ "c1" = "c1" ∧ "ns2" = "ns2" ∧ true = true ∧ false = false) :=
  ⟨by decide, rfl,
   remoteServiceAccountName_injective "ns1" "c1" "ns2" true false "ns1" "c1" "ns2" true false
     (by decide) (by decide) (by decide) (by decide) (by decide) (by decide) rfl⟩

/-- C10: two runs that differ only in remoteCluster build the same resource list and
end the same way, and their writes agree everywhere except possibly at the second
header line. -/
theorem RunE_remoteCluster_independent (env : Env) (flags : Flags)
    (localCluster remoteCluster1 remoteCluster2 : String) :
    (RunE env flags [localCluster, remoteCluster1]).resources
        = (RunE env flags [localCluster, remoteCluster2]).resources
      ∧ (RunE env flags [localCluster, remoteCluster1]).termination
        = (RunE env flags [localCluster, remoteCluster2]).termination
      ∧ (RunE env flags [localCluster, remoteCluster1]).effects.length
        = (RunE env flags [localCluster, remoteCluster2]).effects.length
      ∧ (RunE env flags [localCluster, remoteCluster1]).effects.eraseIdx 1
        = (RunE env flags [localCluster, remoteCluster2]).effects.eraseIdx 1 := by
  have hres : (RunE env flags [localCluster, remoteCluster1]).resources
      = (RunE env flags [localCluster, remoteCluster2]).resources := by
    rw [RunE_resources, RunE_resources]
  refine ⟨hres, ?_, ?_, ?_⟩
  · rw [RunE_termination, RunE_termination]
  · rw [RunE_effects, RunE_effects, hres]
    simp
  · rw [RunE_effects, RunE_effects, hres]
    simp [List.eraseIdx]

end Cluster
